import Mathlib

/-!
Verification of the Circuit City client-side layer.

Shallow embedding of the two specified components:
* the service-worker Cache Router (source: the `cc-v3` service worker file:
  constants `VERSION`/`STATIC_CACHE`/`PAGE_CACHE`/`CDN_CACHE`, helpers
  `isGET`/`isDoc`/`isStatic`/`isCDN`, `cachePut`, `swr`, `networkFirst`,
  the `activate` listener and the `fetch` listener);
* the barcode Capture Loop (source: `static/js/scanner.js`: `seenMap`,
  `addDetections`, `clearSeen`, `handleFoundFactory`, `startScan`,
  `stopScan`, `stopTracks`).

Modelling conventions: a JavaScript promise that may reject is a value of
`Option _` at its resolution point (`none` = rejection / `undefined`);
`Date.now()` timestamps are `Nat`; the browser cache storage is an
association list of named caches, each an association list from request URL
to stored response.  Asynchronous effects are sequenced in program order;
an unawaited promise is modelled at the point its value is used (or, for
the `networkFirst` fallback, at the point the unawaited promise object
itself is returned).
-/

namespace CircuitCity

/-! ## Service worker: data model -/

/-- A fetch `Response`.  `id` distinguishes distinct network responses;
`ok` models `res.ok`; `opq` models `res.type === 'opaque'`;
`synthError` marks the synthetic `Response.error()` object. -/
structure Response where
  id : Nat := 0
  ok : Bool := false
  opq : Bool := false
  synthError : Bool := false
deriving DecidableEq, Repr

/-- `Response.error()` — the synthetic network-failure response. -/
def Response.error : Response := { synthError := true }

/-- One named cache: request URL → stored response snapshot. -/
abbrev Cache := List (String × Response)

/-- `cache.match(request, {ignoreVary:true})`: first entry for the URL. -/
def Cache.matchReq (c : Cache) (u : String) : Option Response :=
  (c.find? (fun p => p.1 = u)).map (fun p => p.2)

/-- `cache.put(request, response)`: store, replacing any entry for the URL. -/
def Cache.putReq (c : Cache) (u : String) (r : Response) : Cache :=
  (u, r) :: c.filter (fun p => p.1 ≠ u)

/-- The browser `caches` storage: named caches in creation order. -/
abbrev Caches := List (String × Cache)

/-- Look up a URL inside the named cache (`caches.open(n)` then `match`);
an absent cache behaves as an empty one. -/
def Caches.lookup (cs : Caches) (n u : String) : Option Response :=
  match cs.find? (fun c => c.1 = n) with
  | some c => c.2.matchReq u
  | none => none

/-- `caches.open(n)` followed by `cache.put(u, r)`: update the named cache,
creating it when absent. -/
def Caches.openPut (cs : Caches) (n u : String) (r : Response) : Caches :=
  if cs.any (fun c => c.1 = n) then
    cs.map (fun c => if c.1 = n then (c.1, c.2.putReq u r) else c)
  else
    cs ++ [(n, Cache.putReq [] u r)]

/-- `caches.match(u)`: search every cache in creation order. -/
def Caches.matchAll (cs : Caches) (u : String) : Option Response :=
  cs.findSome? (fun c => c.2.matchReq u)

/-! ## Service worker: constants and request classification -/

def VERSION : String := "cc-v3-2025-08-22"

def STATIC_CACHE : String := VERSION ++ "-static"

def PAGE_CACHE : String := VERSION ++ "-pages"

def CDN_CACHE : String := VERSION ++ "-cdn"

/-- An intercepted request, with the `URL` fields the router reads.
`acceptHeader` is `req.headers.get('accept') || ''`. -/
structure Request where
  method : String
  mode : String
  acceptHeader : String
  origin : String
  hostname : String
  pathname : String
  url : String
deriving DecidableEq, Repr

/-- `str.includes(sub)` for a fixed non-empty pattern. -/
def jsIncludes (s sub : String) : Bool :=
  decide ((s.splitOn sub).length ≥ 2)

/-- `isGET`: `req.method === 'GET'`. -/
def isGET (req : Request) : Bool := req.method = "GET"

/-- `isDoc`: navigation mode, or an HTML accept preference. -/
def isDoc (req : Request) : Bool :=
  req.mode = "navigate" || jsIncludes req.acceptHeader "text/html"

/-- `isStatic`: same-origin and path under `/static/`.
`so` is `self.location.origin`. -/
def isStatic (so : String) (req : Request) : Bool :=
  req.origin = so && req.pathname.startsWith "/static/"

def cdnHosts : List String :=
  ["jsdelivr.net", "gstatic.com", "googleapis.com", "unpkg.com",
   "bootstrapcdn.com"]

/-- `isCDN`: the regex `(^|\.)(?:jsdelivr\.net|gstatic\.com|googleapis\.com|unpkg\.com|bootstrapcdn\.com)$`
on `url.hostname`: the hostname is an allow-listed domain or ends with
`"." ++ domain`. -/
def isCDN (host : String) : Bool :=
  cdnHosts.any (fun d => host = d || host.endsWith ("." ++ d))

/-! ## Service worker: strategies

`f : Option Response` is the resolution of `fetch(request)` (`none` =
network failure).  `pf : Bool` ("put fails") makes the inner
`cache.put` throw, which `cachePut` catches. -/

/-- `cachePut(cacheName, request, response)`: store only `ok` or opaque
responses; a throwing `cache.put` is caught and ignored (no write, no
propagation). -/
def cachePut (cs : Caches) (n u : String) (r : Response) (pf : Bool) : Caches :=
  if r.ok || r.opq then
    if pf then cs else Caches.openPut cs n u r
  else cs

/-- `swr(cacheName, request)` (stale-while-revalidate).  The cached entry
is read first; the network fetch is issued concurrently and its success
runs `cachePut` (its failure resolves to `null`).  Returned value is
`cached || (await fetchPromise) || cached || Response.error()`. -/
def swr (cs : Caches) (n u : String) (f : Option Response) (pf : Bool) :
    Response × Caches :=
  let cached := Caches.lookup cs n u
  let cs' := match f with
    | some res => cachePut cs n u res pf
    | none => cs
  match cached with
  | some c => (c, cs')
  | none =>
    match f with
    | some res => (res, cs')
    | none => (Response.error, cs')

/-- `networkFirst(cacheName, request)`.  On fetch success: `cachePut` and
return the response.  On fetch failure the source returns
`cached || caches.match('/') || Response.error()` where `caches.match('/')`
is NOT awaited: the promise object is truthy, so when `cached` is absent
the function resolves to whatever `caches.match('/')` resolves to —
possibly `undefined` (modelled `none`) — and `Response.error()` is never
evaluated. -/
def networkFirst (cs : Caches) (n u : String) (f : Option Response)
    (pf : Bool) : Option Response × Caches :=
  match f with
  | some res => (some res, cachePut cs n u res pf)
  | none =>
    match Caches.lookup cs n u with
    | some c => (some c, cs)
    | none => (Caches.matchAll cs "/", cs)

/-! ## Service worker: activate and fetch listeners -/

/-- The names the activate listener keeps. -/
def activateKeep : List String := [STATIC_CACHE, PAGE_CACHE, CDN_CACHE]

/-- The activate listener: delete every cache whose name is not one of the
three current-version names.  Input and output are `caches.keys()`. -/
def activate (keys : List String) : List String :=
  keys.filter (fun k => activateKeep.contains k)

/-- Classification performed by the fetch listener, in source order. -/
inductive RouteClass where
  | passthrough
  | document
  | staticAsset
  | cdn
  | fallback
deriving DecidableEq, Repr

def classify (so : String) (req : Request) : RouteClass :=
  if !isGET req then .passthrough
  else if isDoc req then .document
  else if isStatic so req then .staticAsset
  else if isCDN req.hostname then .cdn
  else .fallback

/-- What the fetch listener does with the event: nothing (`passthrough`),
or `respondWith` a promise resolving to `respond r` (`r = none` models
resolving to `undefined`). -/
inductive FetchOutcome where
  | passthrough
  | respond (r : Option Response)
deriving DecidableEq, Repr

/-- The fetch listener: classify, run the matching strategy, return the
outcome together with the cache storage after all writes settle. -/
def handleFetch (so : String) (cs : Caches) (req : Request)
    (f : Option Response) (pf : Bool) : FetchOutcome × Caches :=
  match classify so req with
  | .passthrough => (.passthrough, cs)
  | .document =>
    let p := networkFirst cs PAGE_CACHE req.url f pf
    (.respond p.1, p.2)
  | .staticAsset =>
    let p := swr cs STATIC_CACHE req.url f pf
    (.respond (some p.1), p.2)
  | .cdn =>
    let p := swr cs CDN_CACHE req.url f pf
    (.respond (some p.1), p.2)
  | .fallback =>
    match f with
    | some res => (.respond (some res), cs)
    | none => (.respond (some ((Caches.matchAll cs req.url).getD Response.error)), cs)

/-! ## Scanner: detection aggregator (`seenMap`, `addDetections`) -/

/-- `seenMap`: a JS `Map` from decoded value to last-seen timestamp,
in insertion order. -/
abbrev SeenMap := List (String × Nat)

/-- `seenMap.has(k)`. -/
def SeenMap.hasKey (m : SeenMap) (k : String) : Bool :=
  m.any (fun p => p.1 = k)

/-- `seenMap.set(k, t)`: update in place when present (keeping insertion
order), append otherwise. -/
def SeenMap.setKey (m : SeenMap) (k : String) (t : Nat) : SeenMap :=
  if m.any (fun p => p.1 = k) then
    m.map (fun p => if p.1 = k then (k, t) else p)
  else m ++ [(k, t)]

/-- `[...seenMap.keys()]`. -/
def SeenMap.keys (m : SeenMap) : List String :=
  m.map (fun p => p.1)

/-- JS `String.prototype.trim()`: strip whitespace from both ends
(written structurally over the character list so it computes by
reduction). -/
def jsTrim (s : String) : String :=
  ⟨((s.data.dropWhile Char.isWhitespace).reverse.dropWhile
      Char.isWhitespace).reverse⟩

/-- One iteration of the insertion loop of `addDetections`: trim the raw
value, skip blanks, record whether a new key appeared, then
`seenMap.set(val, now)`. -/
def detInsert (now : Nat) (acc : SeenMap × Bool) (raw : String) :
    SeenMap × Bool :=
  let v := jsTrim raw
  if v = "" then acc
  else (acc.1.setKey v now, acc.2 || !acc.1.hasKey v)

/-- `addDetections(values)` at time `now` with window `timeoutMs`:
insert/refresh every non-blank trimmed value, then purge every entry with
`now - t > seenTimeoutMs`.  Returns the new map and the `changed` flag. -/
def addDetections (m : SeenMap) (values : List String) (now timeoutMs : Nat) :
    SeenMap × Bool :=
  let ins := values.foldl (detInsert now) (m, false)
  let purged := ins.1.filter (fun p => !decide (now - p.2 > timeoutMs))
  (purged, ins.2 || decide (purged.length ≠ ins.1.length))

/-! ## Scanner: session state and lifecycle

The module-level mutable variables of `scanner.js` form `ScanState`;
`World` tracks which media tracks are live on the device (a track id is
active until some code calls `stop()` on it).  `stopTracks` wraps every
statement in `try {} catch {}` in the source, so it is a total function. -/

structure ScanState where
  seenMap : SeenMap
  seenTimeoutMs : Nat
  stopRequested : Bool
  stream : Option (List Nat)
  track : Option Nat
  detector : Bool
  zxingReader : Bool
  zxingControls : Bool
deriving DecidableEq, Repr

structure World where
  active : List Nat
deriving DecidableEq, Repr

/-- The initial values of the module-level variables. -/
def initScanState : ScanState :=
  { seenMap := [], seenTimeoutMs := 2000, stopRequested := false,
    stream := none, track := none, detector := false,
    zxingReader := false, zxingControls := false }

/-- `track.stop()` on one track id. -/
def stopTrackId (w : World) (i : Nat) : World :=
  { active := w.active.filter (fun j => j ≠ i) }

/-- `stopTracks()`: stop zxing controls, stop `track`, stop every track of
`stream`, null both references.  Every statement is inside
`try {} catch {}` in the source. -/
def stopTracks (s : ScanState) (w : World) : ScanState × World :=
  let w1 := match s.track with
    | some i => stopTrackId w i
    | none => w
  let w2 := match s.stream with
    | some ids => ids.foldl stopTrackId w1
    | none => w1
  ({ s with stream := none, track := none, zxingControls := false }, w2)

/-- `stopScan()`: raise the stop flag, `stopTracks()`, drop the detector
and reader handles.  Total: it never throws. -/
def stopScan (s : ScanState) (w : World) : ScanState × World :=
  let p := stopTracks { s with stopRequested := true } w
  let s2 := { p.1 with detector := false, zxingReader := false, zxingControls := false }
  (s2, p.2)

/-- `clearSeen()`. -/
def clearSeen (s : ScanState) : ScanState :=
  { s with seenMap := [] }

/-- `scanWindowMs = 2000` parameter default (for `undefined`) followed by
`seenTimeoutMs = scanWindowMs || 2000` (any falsy value, i.e. `0`, falls
back to the default). -/
def resolveScanWindow (arg : Option Nat) : Nat :=
  let w := arg.getD 2000
  if w = 0 then 2000 else w

/-- The synchronous prologue of `startScan` (before the first `await`):
`stopRequested = false; seenTimeoutMs = scanWindowMs || 2000; clearSeen()`. -/
def startPrologue (s : ScanState) (scanWindowMs : Option Nat) : ScanState :=
  clearSeen { s with stopRequested := false,
                     seenTimeoutMs := resolveScanWindow scanWindowMs }

/-- `getUserMedia` resolving inside `openStream` during `startScan`:
a fresh track becomes active on the device, `stream` and `track` are
bound to it. -/
def openStreamResolved (s : ScanState) (w : World) (tid : Nat) :
    ScanState × World :=
  ({ s with stream := some [tid], track := some tid },
   { active := tid :: w.active })

/-! ## Scanner: detection handling (`handleFoundFactory`) -/

/-- The observable outcome of one `handleFound(values)` call: nothing,
the disambiguation picker over the live candidates, or a resolution
`onResult(v, {multiple: uniq})`. -/
inductive FoundOutcome where
  | noop
  | picker (choices : List String)
  | resolved (value : String) (multiple : List String)
deriving DecidableEq, Repr

/-- `handleFound(values)` from `handleFoundFactory`: ignore empty batches,
`addDetections(values)`, read `uniq = [...seenMap.keys()]`; with
`allowMultiple` and more than one live candidate show the picker (no
resolution, no stop); otherwise take `uniq[0] ?? values[0]` and, when
truthy, resolve (running `stopScan()` first unless `continueAfterResult`). -/
def handleFound (allowMultiple continueAfterResult : Bool)
    (s : ScanState) (w : World) (values : List String) (now : Nat) :
    ScanState × World × FoundOutcome :=
  if values.isEmpty then (s, w, .noop)
  else
    let m := (addDetections s.seenMap values now s.seenTimeoutMs).1
    let s1 := { s with seenMap := m }
    let uniq := m.keys
    if allowMultiple && decide (uniq.length > 1) then
      (s1, w, .picker uniq)
    else
      let v := match uniq.head? with
        | some u => u
        | none => values.headD ""
      if v ≠ "" then
        if continueAfterResult then (s1, w, .resolved v uniq)
        else
          let p := stopScan s1 w
          (p.1, p.2, .resolved v uniq)
      else (s1, w, .noop)

/-- One iteration of the native detection loop: the `stopRequested` guard
runs first and returns without any cleanup; otherwise the decoded frame
values are handed to `handleFound`. -/
def loopIter (allowMultiple continueAfterResult : Bool)
    (s : ScanState) (w : World) (frameValues : List String) (now : Nat) :
    ScanState × World × FoundOutcome :=
  if s.stopRequested then (s, w, .noop)
  else handleFound allowMultiple continueAfterResult s w frameValues now

/-! ## Concrete executions used by the theorems -/

/-- The interleaving "stopScan while startScan's getUserMedia is pending":
state after `startPrologue` then `stopScan` (no stream exists yet). -/
def c4AfterStop : ScanState × World :=
  stopScan (startPrologue initScanState (some 2000)) { active := [] }

/-- ... then `getUserMedia` resolves and binds track `7`. -/
def c4AfterOpen : ScanState × World :=
  openStreamResolved c4AfterStop.1 c4AfterStop.2 7

/-- ... then the first detection-loop iteration runs. -/
def c4Final : ScanState × World × FoundOutcome :=
  loopIter true false c4AfterOpen.1 c4AfterOpen.2 [] 0

/-- Aggregator state after a detection of `"A"` at t=0 (window 2000ms). -/
def c3Map1 : SeenMap := (addDetections [] ["A"] 0 2000).1

/-- ... then a detection of `"B"` at t=500ms. -/
def c3Map2 : SeenMap := (addDetections c3Map1 ["B"] 500 2000).1

/-- A sample navigation request. -/
def navReq : Request :=
  { method := "GET", mode := "navigate", acceptHeader := "",
    origin := "https://app.example", hostname := "app.example",
    pathname := "/inventory", url := "/inventory" }

/-- A sample non-GET request. -/
def postReq : Request :=
  { method := "POST", mode := "cors", acceptHeader := "application/json",
    origin := "https://app.example", hostname := "app.example",
    pathname := "/inventory/scan", url := "/inventory/scan" }

/-- A sample ok response and a fresher one. -/
def r1 : Response := { id := 1, ok := true }

def r2 : Response := { id := 2, ok := true }

/-- A static cache holding `r1` for one asset. -/
def cs0 : Caches := [(STATIC_CACHE, [("/static/app.js", r1)])]

/-! ## Helper lemmas -/

theorem openPut_cons_ne (hd : String × Cache) (tl : Caches) (n u : String)
    (r : Response) (h : hd.1 ≠ n) :
    Caches.openPut (hd :: tl) n u r = hd :: Caches.openPut tl n u r := by
  by_cases h2 : tl.any (fun c => c.1 = n)
  · simp [Caches.openPut, List.any_cons, h, h2]
  · simp [Caches.openPut, List.any_cons, h, h2]

theorem openPut_lookup_same (cs : Caches) (n u : String) (r : Response) :
    Caches.lookup (Caches.openPut cs n u r) n u = some r := by
  induction cs with
  | nil =>
    simp [Caches.openPut, Caches.lookup, Cache.putReq, Cache.matchReq]
  | cons hd tl ih =>
    by_cases h : hd.1 = n
    · have hany : (hd :: tl).any (fun c => c.1 = n) = true := by
        simp [List.any_cons, h]
      simp [Caches.openPut, hany, Caches.lookup, List.find?, h,
        Cache.matchReq, Cache.putReq]
    · rw [openPut_cons_ne hd tl n u r h]
      have : Caches.lookup (hd :: Caches.openPut tl n u r) n u
          = Caches.lookup (Caches.openPut tl n u r) n u := by
        simp [Caches.lookup, List.find?, h]
      rw [this]
      exact ih

theorem networkFirst_fst_pf (cs : Caches) (n u : String) (f : Option Response)
    (pf : Bool) :
    (networkFirst cs n u f pf).1 = (networkFirst cs n u f false).1 := by
  cases f with
  | some res => simp [networkFirst]
  | none => cases h : Caches.lookup cs n u <;> simp [networkFirst, h]

theorem swr_fst_pf (cs : Caches) (n u : String) (f : Option Response)
    (pf : Bool) :
    (swr cs n u f pf).1 = (swr cs n u f false).1 := by
  cases f with
  | some res => cases h : Caches.lookup cs n u <;> simp [swr, h]
  | none => cases h : Caches.lookup cs n u <;> simp [swr, h]

theorem any_key_map_set (m : SeenMap) (v k : String) (t : Nat) (h : k ≠ v) :
    (m.map (fun p => if p.1 = v then (v, t) else p)).any (fun p => p.1 = k)
      = m.any (fun p => p.1 = k) := by
  induction m with
  | nil => rfl
  | cons a m ih =>
    by_cases hv : a.1 = v
    · simp [List.map_cons, List.any_cons, hv, Ne.symm h, ih]
    · simp [List.map_cons, List.any_cons, hv, ih]

theorem hasKey_setKey_ne (m : SeenMap) (v k : String) (t : Nat) (h : k ≠ v) :
    (m.setKey v t).hasKey k = m.hasKey k := by
  unfold SeenMap.setKey SeenMap.hasKey
  by_cases ha : m.any (fun p => p.1 = v)
  · simp only [ha, if_true]
    exact any_key_map_set m v k t h
  · simp [ha, List.any_append, Ne.symm h]

theorem detInsert_fold_hasKey_blank (now : Nat) (vs : List String) :
    ∀ (m : SeenMap) (b : Bool), m.hasKey "" = false →
      ((vs.foldl (detInsert now) (m, b)).1).hasKey "" = false := by
  induction vs with
  | nil => intro m b h; exact h
  | cons raw vs ih =>
    intro m b h
    simp only [List.foldl_cons]
    by_cases hv : jsTrim raw = ""
    · have : detInsert now (m, b) raw = (m, b) := by
        simp [detInsert, hv]
      rw [this]
      exact ih m b h
    · have : detInsert now (m, b) raw
          = (m.setKey (jsTrim raw) now, b || !m.hasKey (jsTrim raw)) := by
        simp [detInsert, hv]
      rw [this]
      apply ih
      rw [hasKey_setKey_ne m (jsTrim raw) "" now (fun e => hv e.symm)]
      exact h

theorem hasKey_filter_false (m : SeenMap) (k : String)
    (q : String × Nat → Bool) (h : m.hasKey k = false) :
    SeenMap.hasKey (m.filter q) k = false := by
  unfold SeenMap.hasKey at h ⊢
  rw [List.any_eq_false] at h ⊢
  intro x hx
  exact h x (List.mem_filter.mp hx).1

theorem addDetections_hasKey_blank (m : SeenMap) (vs : List String)
    (now t : Nat) (h : m.hasKey "" = false) :
    ((addDetections m vs now t).1).hasKey "" = false := by
  unfold addDetections
  exact hasKey_filter_false _ _ _ (detInsert_fold_hasKey_blank now vs m false h)

theorem hasKey_of_mem_keys (m : SeenMap) (k : String) (h : k ∈ m.keys) :
    m.hasKey k = true := by
  unfold SeenMap.keys at h
  unfold SeenMap.hasKey
  rw [List.any_eq_true]
  obtain ⟨p, hp, he⟩ := List.mem_map.mp h
  exact ⟨p, hp, by simp [he]⟩

/-! ## Claim theorems -/

/-- C1 (code bug): the claim says that on network failure with neither a
cached snapshot for the request nor a cached root shell, the router
returns a synthetic failure response, so every path resolves to a
response object.  In the source, `cached || caches.match('/') ||
Response.error()` returns the `caches.match('/')` promise without
awaiting it; the promise object is truthy, so `Response.error()` is dead
code and the handler resolves to `undefined` (modelled `respond none`)
when the root shell is also missing. -/
theorem sw_c1_network_failure_resolves_undefined :
    (handleFetch "https://app.example" [] navReq none false).1
      = .respond none
    ∧ (handleFetch "https://app.example" [] navReq none false).1
      ≠ .respond (some Response.error) := by
  exact ⟨rfl, by decide⟩

/-- C2: stale-while-revalidate.  With a cached entry the returned response
is the cached one whatever the network does (in particular a network
failure is swallowed and changes nothing); without a cached entry the
caller gets the network response, or `Response.error()` if the fetch also
failed; a successful ok fetch overwrites the cache entry. -/
theorem sw_c2_swr (cs : Caches) (n u : String) (pf : Bool) :
    (∀ c, Caches.lookup cs n u = some c → ∀ f, (swr cs n u f pf).1 = c)
    ∧ (Caches.lookup cs n u = none →
        ∀ r, (swr cs n u (some r) pf).1 = r)
    ∧ (Caches.lookup cs n u = none →
        (swr cs n u none pf).1 = Response.error)
    ∧ ((swr cs n u none pf).2 = cs)
    ∧ (∀ r, r.ok = true →
        Caches.lookup (swr cs n u (some r) false).2 n u = some r) := by
  refine ⟨?_, ?_, ?_, ?_, ?_⟩
  · intro c hc f
    cases f <;> simp [swr, hc]
  · intro hc r
    simp [swr, hc]
  · intro hc
    simp [swr, hc]
  · cases h : Caches.lookup cs n u <;> simp [swr, h]
  · intro r hr
    have h2 : (swr cs n u (some r) false).2 = cachePut cs n u r false := by
      cases h : Caches.lookup cs n u <;> simp [swr, h]
    rw [h2]
    have h3 : cachePut cs n u r false = Caches.openPut cs n u r := by
      simp [cachePut, hr]
    rw [h3]
    exact openPut_lookup_same cs n u r

/-- Witness for C2 at a concrete cache: a network failure still returns
the cached `r1`, and a successful fetch of `r2` overwrites the entry. -/
theorem sw_c2_swr_witness :
    (swr cs0 STATIC_CACHE "/static/app.js" none true).1 = r1
    ∧ Caches.lookup (swr cs0 STATIC_CACHE "/static/app.js" (some r2) false).2
        STATIC_CACHE "/static/app.js" = some r2 := by
  refine ⟨?_, ?_⟩
  · exact (sw_c2_swr cs0 STATIC_CACHE "/static/app.js" true).1 r1 (by decide) none
  · exact (sw_c2_swr cs0 STATIC_CACHE "/static/app.js" false).2.2.2.2 r2 (by decide)

/-- C6: activation deletes every cache partition whose name is not one of
the three current-version names, and keeps each current-version partition
that exists. -/
theorem sw_c6_activate (keys : List String) (k : String) :
    (k ∉ activateKeep → k ∉ activate keys)
    ∧ (k ∈ activateKeep → k ∈ keys → k ∈ activate keys) := by
  constructor
  · intro h hmem
    rcases List.mem_filter.mp hmem with ⟨_, hk⟩
    exact h (by simpa using hk)
  · intro h1 h2
    exact List.mem_filter.mpr ⟨h2, by simpa using h1⟩

/-- Witness for C6: a stale-version partition is deleted, the new static
partition survives. -/
theorem sw_c6_activate_witness :
    "cc-v2-old-pages"
        ∉ activate ["cc-v2-old-pages", "cc-v3-2025-08-22-static"]
    ∧ "cc-v3-2025-08-22-static"
        ∈ activate ["cc-v2-old-pages", "cc-v3-2025-08-22-static"] := by
  constructor
  · exact (sw_c6_activate ["cc-v2-old-pages", "cc-v3-2025-08-22-static"]
      "cc-v2-old-pages").1 (by decide)
  · exact (sw_c6_activate ["cc-v2-old-pages", "cc-v3-2025-08-22-static"]
      "cc-v3-2025-08-22-static").2 (by decide) (by decide)

/-- C8: `cachePut` stores nothing unless the response is ok or opaque; a
throwing `cache.put` is swallowed and stores nothing; and whether a cache
write fails never changes the response the fetch listener delivers. -/
theorem sw_c8_cache_writes (so : String) (cs : Caches) (req : Request)
    (pf : Bool) :
    (∀ n u r, r.ok = false → r.opq = false → cachePut cs n u r pf = cs)
    ∧ (∀ n u r, cachePut cs n u r true = cs)
    ∧ (∀ f, (handleFetch so cs req f pf).1 = (handleFetch so cs req f false).1) := by
  refine ⟨?_, ?_, ?_⟩
  · intro n u r h1 h2
    simp [cachePut, h1, h2]
  · intro n u r
    simp only [cachePut]
    split <;> simp
  · intro f
    cases hc : classify so req <;>
      simp [handleFetch, hc, networkFirst_fst_pf, swr_fst_pf]

/-- Witness for C8: a non-ok, non-opaque response (the synthetic error) is
never written. -/
theorem sw_c8_cache_writes_witness :
    cachePut cs0 STATIC_CACHE "/static/app.js" Response.error false = cs0 :=
  (sw_c8_cache_writes "https://app.example" cs0 navReq false).1
    STATIC_CACHE "/static/app.js" Response.error rfl rfl

/-- C9: a request whose method is not GET is not intercepted: the listener
returns without `respondWith` and no cache is touched. -/
theorem sw_c9_non_get_passthrough (so : String) (cs : Caches) (req : Request)
    (f : Option Response) (pf : Bool) (h : req.method ≠ "GET") :
    (handleFetch so cs req f pf).1 = .passthrough
    ∧ (handleFetch so cs req f pf).2 = cs := by
  have hg : isGET req = false := by simp [isGET, h]
  have hc : classify so req = .passthrough := by simp [classify, hg]
  simp [handleFetch, hc]

/-- Witness for C9 at a concrete POST request. -/
theorem sw_c9_non_get_passthrough_witness :
    (handleFetch "https://app.example" cs0 postReq none false).1 = .passthrough
    ∧ (handleFetch "https://app.example" cs0 postReq none false).2 = cs0 :=
  sw_c9_non_get_passthrough "https://app.example" cs0 postReq none false
    (by decide)

/-- C3 (counterexample): detections of `A` at t=0 and `B` at t=500 with a
2000ms window, and no further detections.  Purging only happens inside
`addDetections`, which is only reached on a detection batch; with no
further detections no aggregation step runs after t=500, so the live
candidate set at t=2600 is still `c3Map2` — and it still contains both
`A` and `B`, contradicting the claim that both have been purged by then. -/
theorem scanner_c3_not_purged_without_detections :
    c3Map2 = [("A", 0), ("B", 500)]
    ∧ c3Map2.hasKey "A" = true
    ∧ c3Map2.hasKey "B" = true := by
  exact ⟨rfl, rfl, rfl⟩

/-- C3 (amended): both `A` and `B` are purged at the next aggregation step
at t=2600 — processing any further batch then (a new value `C`, or even an
empty batch) removes every candidate not re-observed within the window. -/
theorem scanner_c3_purged_at_next_aggregation :
    (addDetections c3Map2 ["C"] 2600 2000).1 = [("C", 2600)]
    ∧ SeenMap.hasKey (addDetections c3Map2 ["C"] 2600 2000).1 "A" = false
    ∧ SeenMap.hasKey (addDetections c3Map2 ["C"] 2600 2000).1 "B" = false
    ∧ (addDetections c3Map2 [] 2600 2000).1 = [] := by
  exact ⟨rfl, rfl, rfl, rfl⟩

/-- C4 (code bug): the claim says calling `stop` before `start` completes
leaves no active media tracks.  In the interleaving where `stopScan` runs
while `startScan` is awaiting `getUserMedia`, `stopTracks` finds no stream
to stop; the stream then opens (track 7 becomes active) and the first
detection-loop iteration returns on `stopRequested` without any cleanup,
so track 7 stays active although `stopScan` already ran (and threw
nothing). -/
theorem scanner_c4_stop_during_start_leaves_track_active :
    c4AfterStop.2.active = []
    ∧ c4AfterStop.1.stopRequested = true
    ∧ c4Final.1.stopRequested = true
    ∧ c4Final.2.1.active = [7] := by
  exact ⟨rfl, rfl, rfl, rfl⟩

/-- C5: with `allowMultiple = true`, if after aggregating the batch more
than one distinct candidate is live the handler shows the picker over the
live candidates (no resolution); if exactly one candidate is live it
resolves immediately with that value. -/
theorem scanner_c5_disambiguation (cont : Bool) (s : ScanState) (w : World)
    (values : List String) (now : Nat)
    (hne : values ≠ [])
    (hnb : s.seenMap.hasKey "" = false) :
    ((addDetections s.seenMap values now s.seenTimeoutMs).1.keys.length > 1 →
      (handleFound true cont s w values now).2.2 =
        .picker (addDetections s.seenMap values now s.seenTimeoutMs).1.keys)
    ∧ ((addDetections s.seenMap values now s.seenTimeoutMs).1.keys.length = 1 →
      (handleFound true cont s w values now).2.2 =
        .resolved ((addDetections s.seenMap values now s.seenTimeoutMs).1.keys.headD "")
          (addDetections s.seenMap values now s.seenTimeoutMs).1.keys) := by
  have hemp : values.isEmpty = false := by
    cases values with
    | nil => exact absurd rfl hne
    | cons a l => rfl
  constructor
  · intro hlen
    simp [handleFound, hemp, hlen]
  · intro hlen
    have hcond : decide
        ((addDetections s.seenMap values now s.seenTimeoutMs).1.keys.length > 1)
          = false := by
      simp [hlen]
    obtain ⟨k, hk⟩ := List.length_eq_one.mp hlen
    have hmem : k ∈ (addDetections s.seenMap values now s.seenTimeoutMs).1.keys := by
      rw [hk]; exact List.mem_singleton.mpr rfl
    have hhk : SeenMap.hasKey (addDetections s.seenMap values now s.seenTimeoutMs).1 k
        = true := hasKey_of_mem_keys _ _ hmem
    have hblank : SeenMap.hasKey
        (addDetections s.seenMap values now s.seenTimeoutMs).1 "" = false :=
      addDetections_hasKey_blank _ _ _ _ hnb
    have hkne : k ≠ "" := by
      intro e
      rw [e] at hhk
      rw [hhk] at hblank
      exact Bool.noConfusion hblank
    cases cont <;> simp [handleFound, hemp, hcond, hk, hkne]

/-- Witness for C5: one value `"X"` in a fresh session resolves
immediately with `"X"`. -/
theorem scanner_c5_disambiguation_witness :
    (handleFound true false initScanState { active := [] } ["X"] 0).2.2 =
      .resolved "X" ["X"] := by
  have h := (scanner_c5_disambiguation false initScanState { active := [] }
    ["X"] 0 (by decide) rfl).2 (by decide)
  exact h

/-- C7 (counterexample): the claim says the candidate mapping is cleared
whenever a session stops and whenever a result is resolved.  `stopScan`
leaves `seenMap` untouched, and the resolution path of `handleFound`
(which calls `stopScan` and then `onResult`) leaves the resolved
candidate in the map. -/
theorem scanner_c7_stop_and_resolve_do_not_clear :
    ((stopScan { initScanState with seenMap := [("356938035643809", 100)] }
        { active := [] }).1).seenMap = [("356938035643809", 100)]
    ∧ ((handleFound true false initScanState { active := [] } ["X"] 0).1).seenMap
        = [("X", 0)] := by
  exact ⟨rfl, rfl⟩

/-- C7 (amended): the mapping is cleared entirely when a session starts
(`startScan`'s prologue runs `clearSeen`); `stopScan` leaves it unchanged,
but since every session start clears it, no candidate from an earlier
session or resolution survives into the next session. -/
theorem scanner_c7_cleared_on_start (s : ScanState) (w : World)
    (arg : Option Nat) :
    (startPrologue s arg).seenMap = []
    ∧ ((stopScan s w).1).seenMap = s.seenMap := by
  exact ⟨rfl, rfl⟩

/-- C10: passing `scanWindowMs = 0` (or omitting it) makes the aggregation
window the 2000ms default — `startScan` can never install a zero-length
window. -/
theorem scanner_c10_zero_window_uses_default (s : ScanState)
    (arg : Option Nat) :
    (startPrologue s (some 0)).seenTimeoutMs = 2000
    ∧ (startPrologue s none).seenTimeoutMs = 2000
    ∧ (startPrologue s arg).seenTimeoutMs ≠ 0 := by
  refine ⟨rfl, rfl, ?_⟩
  show resolveScanWindow arg ≠ 0
  unfold resolveScanWindow
  cases arg with
  | none => simp
  | some v =>
    by_cases h : v = 0 <;> simp [h]

/-- Witness for C10 at the concrete zero argument. -/
theorem scanner_c10_zero_window_uses_default_witness :
    (startPrologue initScanState (some 0)).seenTimeoutMs = 2000
    ∧ (startPrologue initScanState (some 0)).seenTimeoutMs ≠ 0 :=
  ⟨(scanner_c10_zero_window_uses_default initScanState (some 0)).1,
   (scanner_c10_zero_window_uses_default initScanState (some 0)).2.2⟩

end CircuitCity
